import Mathlib

/-!
Verification of the cascading dependent-selection resolution engine of the
scraper (`src/server.js`).  The engine has two parts:

* `waitForDropdownUpdate` — the Selection Driver: commits a value on a trigger
  dropdown, races the loading indicator against the target dropdown becoming
  enabled, conditionally waits for the indicator to hide, and finally confirms
  the target is enabled.
* the `/scrape-options` handler — the Cascade Resolver: dispatches on the
  truthiness of the five query identifiers (makeId, modelId, yearId, countryId,
  fuelId), walks the dependency chain with the driver, and reads the option
  list of the first unresolved stage.

The page and its asynchronous waits are modelled by an oracle (`PageBehavior`,
`ReadBehavior`) saying which waits resolve within their timeouts, and execution
is recorded as an explicit event trace so that invocation counts and ordering
are provable facts.
-/

namespace Scrapper

/-! ## Stage selectors (the six dropdown locators of the external page) -/

def selMake : String := "#MainContent_ddlMake"

def selModel : String := "#MainContent_ddlModel"

def selYear : String := "#MainContent_ddlYear"

def selCountry : String := "#MainContent_ddlCountry"

def selFuel : String := "#MainContent_ddlFuel"

def selEngine : String := "#MainContent_ddlEngine"

/-- Selector of the stage with 0-based index `i` (Make = 0 … Engine = 5). -/
def selAt : Nat → String
  | 0 => selMake
  | 1 => selModel
  | 2 => selYear
  | 3 => selCountry
  | 4 => selFuel
  | _ => selEngine

/-! ## Selection Driver (`waitForDropdownUpdate`, src/server.js lines 54-76) -/

/-- Oracle for one driver invocation: which of the page waits resolve within
their timeouts, and whether the loading-indicator element is present in the
DOM when `page.$` is called after the race. -/
structure PageBehavior where
  /-- `page.select(triggerSelector, triggerValue)` resolves. -/
  selectOk : Bool
  /-- `waitForSelector(indicator, visible, 5000)` resolves: the loading
  indicator was observed becoming visible within the short window. -/
  indicatorVisible : Bool
  /-- `waitForSelector(target not disabled, 5000)` resolves within the short
  race window. -/
  targetEnabledShort : Bool
  /-- `page.$(indicator)` finds the element in the DOM (existence, not
  visibility). -/
  indicatorPresent : Bool
  /-- `waitForSelector(indicator, hidden, 15000)` resolves. -/
  indicatorHides : Bool
  /-- the final `waitForSelector(target not disabled, 15000)` resolves. -/
  targetEnabledFinal : Bool
deriving DecidableEq

/-- The wait steps a driver invocation can attempt, in source order. -/
inductive WaitStep where
  /-- `page.select` on the trigger dropdown. -/
  | selectTrigger
  /-- the `Promise.race` of indicator-visible and target-enabled (5s). -/
  | raceShort
  /-- `waitForSelector(indicator, hidden, 15000)`. -/
  | indicatorHiddenWait
  /-- the final `waitForSelector(target not disabled, 15000)`. -/
  | finalEnabledWait
deriving DecidableEq

/-- What a failed driver call emits. `log` is the `console.error` diagnostic,
`thrown` is the message of the `Error` propagated to the caller. -/
structure DriverFailure where
  log : String
  thrown : String
deriving DecidableEq

/-- How JS renders a possibly-undefined query value inside a template string. -/
def jsShow : Option String → String
  | none => "undefined"
  | some s => s

/-- The thrown message of the catch block:
`Failed to load ${targetSelector} after selecting ${triggerValue}`. -/
def mkThrown (value : Option String) (target : String) : String :=
  "Failed to load " ++ target ++ " after selecting " ++ jsShow value

/-- The `console.error` text of the catch block:
`Dropdown update failed from ${triggerSelector} to ${targetSelector}:`. -/
def mkLog (trigger target : String) : String :=
  "Dropdown update failed from " ++ trigger ++ " to " ++ target ++ ":"

/-- The failure produced by the single catch block of the driver. -/
def mkFailure (trigger : String) (value : Option String) (target : String) :
    DriverFailure :=
  ⟨mkLog trigger target, mkThrown value target⟩

/-- Embedding of `waitForDropdownUpdate` (src/server.js lines 54-76).
Returns the list of wait steps attempted in order, and either success or the
failure thrown by the catch block.  Control flow mirrors the source: select,
race, `page.$` existence check guarding the hidden-wait, final enabled-wait;
any timeout falls into the one catch block. -/
def waitForDropdownUpdate (trigger : String) (value : Option String)
    (target : String) (pb : PageBehavior) :
    List WaitStep × Except DriverFailure Unit :=
  if !pb.selectOk then
    ([.selectTrigger], .error (mkFailure trigger value target))
  else if !(pb.indicatorVisible || pb.targetEnabledShort) then
    ([.selectTrigger, .raceShort], .error (mkFailure trigger value target))
  else if pb.indicatorPresent then
    if !pb.indicatorHides then
      ([.selectTrigger, .raceShort, .indicatorHiddenWait],
        .error (mkFailure trigger value target))
    else if !pb.targetEnabledFinal then
      ([.selectTrigger, .raceShort, .indicatorHiddenWait, .finalEnabledWait],
        .error (mkFailure trigger value target))
    else
      ([.selectTrigger, .raceShort, .indicatorHiddenWait, .finalEnabledWait],
        .ok ())
  else if !pb.targetEnabledFinal then
    ([.selectTrigger, .raceShort, .finalEnabledWait],
      .error (mkFailure trigger value target))
  else
    ([.selectTrigger, .raceShort, .finalEnabledWait], .ok ())

/-- A driver invocation under behavior `pb` succeeds. -/
def pbOk (pb : PageBehavior) : Bool :=
  pb.selectOk && (pb.indicatorVisible || pb.targetEnabledShort) &&
    (!pb.indicatorPresent || pb.indicatorHides) && pb.targetEnabledFinal

/-! ## Option reading (`getSelectOptions`, src/server.js lines 78-87) -/

/-- A raw `option` element of a dropdown: its `value` and `textContent`. -/
structure RawOption where
  value : String
  textContent : String
deriving DecidableEq

/-- A returned option record `{ id, name }`. -/
structure OptionRec where
  id : String
  name : String
deriving DecidableEq

/-- Embedding of JS `String.prototype.trim`: drop leading and trailing
whitespace characters. -/
def jsTrim (s : String) : String :=
  ⟨((s.data.dropWhile Char.isWhitespace).reverse.dropWhile
      Char.isWhitespace).reverse⟩

/-- Oracle for one `getSelectOptions` call: whether the enabled-wait resolves,
and the raw option elements of the dropdown in display order. -/
structure ReadBehavior where
  enabled : Bool
  raw : List RawOption
deriving DecidableEq

/-- The `$$eval` callback: `options.slice(1).map(o => ({ id: o.value,
name: o.textContent.trim() }))`. -/
def stripOptions (raw : List RawOption) : List OptionRec :=
  (raw.drop 1).map fun o => ⟨o.value, jsTrim o.textContent⟩

/-- The timeout message of a failed `waitForSelector` in `getSelectOptions`. -/
def readTimeoutMsg (sel : String) : String :=
  "Waiting for selector " ++ sel ++ " failed: timeout exceeded"

/-- Embedding of `getSelectOptions` (src/server.js lines 78-87). -/
def getSelectOptions (sel : String) (rb : ReadBehavior) :
    Except String (List OptionRec) :=
  if !rb.enabled then .error (readTimeoutMsg sel)
  else .ok (stripOptions rb.raw)

/-! ## Cascade Resolver (`/scrape-options` handler, src/server.js 98-170) -/

/-- The destructured query of the request. A field is `none` when the query
parameter is absent (`undefined` in JS). -/
structure SelectionRequest where
  makeId : Option String
  modelId : Option String
  yearId : Option String
  countryId : Option String
  fuelId : Option String
deriving DecidableEq

/-- JS truthiness of a query value: present and not the empty string. -/
def truthy : Option String → Bool
  | none => false
  | some s => !(s == "")

/-- The identifier the request supplies for the stage with 0-based index
`i`. -/
def idAt (q : SelectionRequest) : Nat → Option String
  | 0 => q.makeId
  | 1 => q.modelId
  | 2 => q.yearId
  | 3 => q.countryId
  | 4 => q.fuelId
  | _ => none

/-- The key under which the handler stores the option list in `result`. -/
inductive StageKey where
  | makes
  | models
  | years
  | countries
  | fuels
  | engines
deriving DecidableEq

/-- One `waitForDropdownUpdate(page, trigger, value, target)` call of the
handler. -/
structure AdvanceCall where
  trigger : String
  value : Option String
  target : String
deriving DecidableEq

/-- The work a dispatch branch performs: driver calls in order, then the
selector whose options are read, stored under `key`. -/
structure ScrapePlan where
  advances : List AdvanceCall
  readSelector : String
  key : StageKey
deriving DecidableEq

/-- Guard of branch 1 of the handler: `!makeId && !modelId && !yearId &&
!countryId && !fuelId`. -/
def guard1 (q : SelectionRequest) : Bool :=
  !truthy q.makeId && !truthy q.modelId && !truthy q.yearId &&
    !truthy q.countryId && !truthy q.fuelId

/-- Guard of branch 2: `makeId && !modelId`. -/
def guard2 (q : SelectionRequest) : Bool :=
  truthy q.makeId && !truthy q.modelId

/-- Guard of branch 3: `makeId && modelId && !yearId`. -/
def guard3 (q : SelectionRequest) : Bool :=
  truthy q.makeId && truthy q.modelId && !truthy q.yearId

/-- Guard of branch 4: `makeId && modelId && yearId && !countryId`. -/
def guard4 (q : SelectionRequest) : Bool :=
  truthy q.makeId && truthy q.modelId && truthy q.yearId &&
    !truthy q.countryId

/-- Guard of branch 5: `makeId && modelId && yearId && countryId && !fuelId`. -/
def guard5 (q : SelectionRequest) : Bool :=
  truthy q.makeId && truthy q.modelId && truthy q.yearId &&
    truthy q.countryId && !truthy q.fuelId

/-- Which of the six dispatch branches of the handler fires. -/
def branchOf (q : SelectionRequest) : Nat :=
  if guard1 q then 1
  else if guard2 q then 2
  else if guard3 q then 3
  else if guard4 q then 4
  else if guard5 q then 5
  else 6

/-- Embedding of the handler's dispatch (src/server.js lines 116-153): the
driver calls and the final option read of the branch that fires. -/
def scrapePlan (q : SelectionRequest) : ScrapePlan :=
  if guard1 q then
    ⟨[], selMake, .makes⟩
  else if guard2 q then
    ⟨[⟨selMake, q.makeId, selModel⟩], selModel, .models⟩
  else if guard3 q then
    ⟨[⟨selMake, q.makeId, selModel⟩, ⟨selModel, q.modelId, selYear⟩],
      selYear, .years⟩
  else if guard4 q then
    ⟨[⟨selMake, q.makeId, selModel⟩, ⟨selModel, q.modelId, selYear⟩,
        ⟨selYear, q.yearId, selCountry⟩],
      selCountry, .countries⟩
  else if guard5 q then
    ⟨[⟨selMake, q.makeId, selModel⟩, ⟨selModel, q.modelId, selYear⟩,
        ⟨selYear, q.yearId, selCountry⟩, ⟨selCountry, q.countryId, selFuel⟩],
      selFuel, .fuels⟩
  else
    ⟨[⟨selMake, q.makeId, selModel⟩, ⟨selModel, q.modelId, selYear⟩,
        ⟨selYear, q.yearId, selCountry⟩, ⟨selCountry, q.countryId, selFuel⟩,
        ⟨selFuel, q.fuelId, selEngine⟩],
      selEngine, .engines⟩

/-- Observable interactions of one request with the external page. -/
inductive ScrapeEvent where
  /-- one `waitForDropdownUpdate(page, trigger, value, target)` invocation. -/
  | advance (trigger : String) (value : Option String) (target : String)
  /-- one `getSelectOptions(page, selector)` invocation. -/
  | readOptions (selector : String)
deriving DecidableEq

/-- Run the driver calls of a branch sequentially: each call waits for the
previous to settle; the first failure stops the walk.  `env i` is the page
behavior seen by the i-th call; the trace records each call attempted. -/
def runAdvances :
    List AdvanceCall → (Nat → PageBehavior) → Nat →
      List ScrapeEvent × Option DriverFailure
  | [], _, _ => ([], none)
  | c :: cs, env, i =>
    match (waitForDropdownUpdate c.trigger c.value c.target (env i)).2 with
    | .error f => ([.advance c.trigger c.value c.target], some f)
    | .ok _ =>
      let r := runAdvances cs env (i + 1)
      (.advance c.trigger c.value c.target :: r.1, r.2)

/-- The HTTP response of the handler: `res.json(result)` on success, or the
catch block's `res.status(500).json({ details: error.message, ... })`. -/
inductive HttpResponse where
  | ok (key : StageKey) (options : List OptionRec)
  | serverError (details : String)
deriving DecidableEq

/-- Embedding of one `/scrape-options` request (src/server.js lines 98-170):
dispatch on the query, walk the chain, read the options of the target stage;
any thrown error reaches the catch block and becomes a 500 response carrying
`error.message` as `details`. -/
def runScrape (q : SelectionRequest) (env : Nat → PageBehavior)
    (rb : ReadBehavior) : List ScrapeEvent × HttpResponse :=
  let p := scrapePlan q
  let r := runAdvances p.advances env 0
  match r.2 with
  | some f => (r.1, .serverError f.thrown)
  | none =>
    match getSelectOptions p.readSelector rb with
    | .error m => (r.1 ++ [.readOptions p.readSelector], .serverError m)
    | .ok opts => (r.1 ++ [.readOptions p.readSelector], .ok p.key opts)

/-! ## Spec-side notions used by the claims -/

/-- Length of the contiguous truthy identifier prefix (the spec's `depth`). -/
def prefixDepth (q : SelectionRequest) : Nat :=
  if !truthy q.makeId then 0
  else if !truthy q.modelId then 1
  else if !truthy q.yearId then 2
  else if !truthy q.countryId then 3
  else if !truthy q.fuelId then 4
  else 5

/-- The request's identifiers form a contiguous prefix of the chain: a truthy
identifier at a stage implies a truthy identifier at the previous stage. -/
def isContiguous (q : SelectionRequest) : Bool :=
  (!truthy q.modelId || truthy q.makeId) &&
    (!truthy q.yearId || truthy q.modelId) &&
    (!truthy q.countryId || truthy q.yearId) &&
    (!truthy q.fuelId || truthy q.countryId)

/-- Modelled from the spec (section 4.2): the driver calls a resolution of
depth `d` must make — stage `i` advanced with the i-th supplied identifier,
for `i` in `0..d-1`. -/
def specAdvances (q : SelectionRequest) (d : Nat) : List AdvanceCall :=
  (List.range d).map fun i => ⟨selAt i, idAt q i, selAt (i + 1)⟩

/-- Infix test on character lists (for "the message names the selector"). -/
def listHasInfix (needle : List Char) : List Char → Bool
  | [] => needle.isEmpty
  | c :: rest => needle.isPrefixOf (c :: rest) || listHasInfix needle rest

/-! ## Driver lemmas -/

theorem wFDU_ok_iff (t : String) (v : Option String) (g : String)
    (pb : PageBehavior) :
    (waitForDropdownUpdate t v g pb).2 = Except.ok () ↔ pbOk pb = true := by
  obtain ⟨s, iv, te, ip, ih, tf⟩ := pb
  cases s <;> cases iv <;> cases te <;> cases ip <;> cases ih <;> cases tf <;>
    simp [waitForDropdownUpdate, pbOk]

theorem wFDU_error_eq (t : String) (v : Option String) (g : String)
    (pb : PageBehavior) (f : DriverFailure)
    (h : (waitForDropdownUpdate t v g pb).2 = Except.error f) :
    f = mkFailure t v g := by
  obtain ⟨s, iv, te, ip, ih, tf⟩ := pb
  cases s <;> cases iv <;> cases te <;> cases ip <;> cases ih <;> cases tf <;>
    simp [waitForDropdownUpdate] at h <;> exact h.symm

theorem wFDU_fail_of_not_ok (t : String) (v : Option String) (g : String)
    (pb : PageBehavior) (h : pbOk pb = false) :
    (waitForDropdownUpdate t v g pb).2 =
      Except.error (mkFailure t v g) := by
  obtain ⟨s, iv, te, ip, ih, tf⟩ := pb
  cases s <;> cases iv <;> cases te <;> cases ip <;> cases ih <;> cases tf <;>
    simp_all [waitForDropdownUpdate, pbOk]

/-! ## Resolver run lemmas -/

/-- The event a driver call leaves in the trace. -/
def toEvent (c : AdvanceCall) : ScrapeEvent :=
  .advance c.trigger c.value c.target

theorem runAdvances_allOk (cs : List AdvanceCall) (env : Nat → PageBehavior)
    (i : Nat) (h : ∀ k, k < cs.length → pbOk (env (i + k)) = true) :
    runAdvances cs env i = (cs.map toEvent, none) := by
  induction cs generalizing i with
  | nil => rfl
  | cons c cs ih =>
    have h0 : pbOk (env i) = true := by
      have := h 0 (by simp)
      simpa using this
    have hok : (waitForDropdownUpdate c.trigger c.value c.target (env i)).2 =
        Except.ok () := (wFDU_ok_iff _ _ _ _).mpr h0
    have hrest : runAdvances cs env (i + 1) = (cs.map toEvent, none) := by
      refine ih (i + 1) fun k hk => ?_
      have hs : i + 1 + k = i + (k + 1) := by omega
      rw [hs]
      exact h (k + 1) (by simpa using Nat.succ_lt_succ hk)
    simp [runAdvances, hok, hrest, toEvent]

theorem runAdvances_fail (cs : List AdvanceCall) (env : Nat → PageBehavior)
    (i j : Nat) (hj : j < cs.length)
    (hpre : ∀ k, k < j → pbOk (env (i + k)) = true)
    (hfail : pbOk (env (i + j)) = false) :
    (runAdvances cs env i).2 =
      some (mkFailure (cs.get ⟨j, hj⟩).trigger (cs.get ⟨j, hj⟩).value
        (cs.get ⟨j, hj⟩).target) := by
  induction cs generalizing i j with
  | nil => exact absurd hj (by simp)
  | cons c cs ih =>
    cases j with
    | zero =>
      have hf : (waitForDropdownUpdate c.trigger c.value c.target (env i)).2 =
          Except.error (mkFailure c.trigger c.value c.target) :=
        wFDU_fail_of_not_ok _ _ _ _ (by simpa using hfail)
      simp [runAdvances, hf]
    | succ j =>
      have h0 : pbOk (env i) = true := by
        have := hpre 0 (Nat.succ_pos j)
        simpa using this
      have hok : (waitForDropdownUpdate c.trigger c.value c.target (env i)).2 =
          Except.ok () := (wFDU_ok_iff _ _ _ _).mpr h0
      have hrec := ih (i + 1) j (by simpa using Nat.lt_of_succ_lt_succ hj)
        (fun k hk => by
          have hs : i + 1 + k = i + (k + 1) := by omega
          rw [hs]
          exact hpre (k + 1) (Nat.succ_lt_succ hk))
        (by
          have hs : i + 1 + j = i + (j + 1) := by omega
          rw [hs]
          exact hfail)
      simp [runAdvances, hok]
      simpa using hrec

theorem runScrape_events_allOk (q : SelectionRequest)
    (env : Nat → PageBehavior) (rb : ReadBehavior)
    (h : ∀ k, k < (scrapePlan q).advances.length → pbOk (env k) = true) :
    (runScrape q env rb).1 =
      (scrapePlan q).advances.map toEvent ++
        [ScrapeEvent.readOptions (scrapePlan q).readSelector] := by
  have hra : runAdvances (scrapePlan q).advances env 0 =
      ((scrapePlan q).advances.map toEvent, none) :=
    runAdvances_allOk _ env 0 (fun k hk => by simpa using h k hk)
  cases hgs : getSelectOptions (scrapePlan q).readSelector rb with
  | error m => simp [runScrape, hra, hgs]
  | ok opts => simp [runScrape, hra, hgs]

theorem plan_contiguous (q : SelectionRequest) (hc : isContiguous q = true)
    (hd : 0 < prefixDepth q) :
    (scrapePlan q).advances = specAdvances q (prefixDepth q) ∧
      (scrapePlan q).readSelector = selAt (prefixDepth q) := by
  cases h1 : truthy q.makeId <;> cases h2 : truthy q.modelId <;>
    cases h3 : truthy q.yearId <;> cases h4 : truthy q.countryId <;>
    cases h5 : truthy q.fuelId <;>
    simp_all [scrapePlan, prefixDepth, isContiguous, guard1, guard2, guard3,
      guard4, guard5, specAdvances, idAt, selAt, List.range_succ]

/-! ## Claim C1 -/

/-- Claim C1: for every valid request whose contiguous identifier prefix has
length `d > 0`, `resolve` invokes the Selection Driver exactly `d` times,
sequentially in chain order (Make, Model, Year, Country, Fuel), passing the
supplied identifiers in that same order, and only after the d-th invocation
returns does it read the OptionSet of stage `d + 1`: the event trace of the
request is exactly the `d` driver invocations, stage `i` advanced with the
i-th supplied identifier, followed (last) by the option read of stage
`d + 1`. -/
theorem c1_walks_chain_in_order (q : SelectionRequest)
    (env : Nat → PageBehavior) (rb : ReadBehavior)
    (hc : isContiguous q = true) (hd : 0 < prefixDepth q)
    (henv : ∀ k, k < prefixDepth q → pbOk (env k) = true) :
    (runScrape q env rb).1 =
      ((List.range (prefixDepth q)).map fun i =>
          ScrapeEvent.advance (selAt i) (idAt q i) (selAt (i + 1))) ++
        [ScrapeEvent.readOptions (selAt (prefixDepth q))] := by
  obtain ⟨ha, hr⟩ := plan_contiguous q hc hd
  have hlen : (scrapePlan q).advances.length = prefixDepth q := by
    simp [ha, specAdvances]
  have hev := runScrape_events_allOk q env rb
    (fun k hk => henv k (hlen ▸ hk))
  rw [hev, ha, hr, specAdvances, List.map_map]
  rfl

/-- Witness for C1 at the concrete request `makeId = "1", modelId = "5"`
(depth 2) with a page where every wait resolves. -/
theorem c1_walks_chain_in_order_witness :
    (runScrape ⟨some "1", some "5", none, none, none⟩
        (fun _ => ⟨true, true, true, true, true, true⟩) ⟨true, []⟩).1 =
      ((List.range (prefixDepth ⟨some "1", some "5", none, none, none⟩)).map
          fun i => ScrapeEvent.advance (selAt i)
            (idAt ⟨some "1", some "5", none, none, none⟩ i) (selAt (i + 1))) ++
        [ScrapeEvent.readOptions
          (selAt (prefixDepth ⟨some "1", some "5", none, none, none⟩))] :=
  c1_walks_chain_in_order ⟨some "1", some "5", none, none, none⟩
    (fun _ => ⟨true, true, true, true, true, true⟩) ⟨true, []⟩
    (by decide) (by decide) (fun k _ => rfl)

/-! ## Claim C2 -/

/-- Counterexample to claim C2 as stated: with a page where the loading
indicator is never observed becoming visible (the race resolves via the
target field becoming enabled) but the indicator element is present in the
DOM — the normal situation for an ASP.NET UpdateProgress element, which
exists hidden — the driver still performs the long wait for the indicator to
disappear, because the guard is the `page.$` existence check, not an
observed-visible flag. -/
theorem c2_counterexample :
    (PageBehavior.mk true false true true true true).indicatorVisible =
        false ∧
      WaitStep.indicatorHiddenWait ∈
        (waitForDropdownUpdate selMake (some "1") selModel
          ⟨true, false, true, true, true, true⟩).1 := by
  constructor
  · rfl
  · simp [waitForDropdownUpdate]

/-- Claim C2 amended: after the initial race resolves, the long wait for the
loading indicator to disappear is performed if and only if the indicator
element is present in the DOM at the post-race `page.$` existence check,
regardless of whether the indicator was ever observed becoming visible; if
the element is absent, the driver proceeds directly to the final
confirmation. -/
theorem c2_hidden_wait_iff_present (t : String) (v : Option String)
    (g : String) (pb : PageBehavior) (hs : pb.selectOk = true)
    (hrace : (pb.indicatorVisible || pb.targetEnabledShort) = true) :
    WaitStep.indicatorHiddenWait ∈ (waitForDropdownUpdate t v g pb).1 ↔
      pb.indicatorPresent = true := by
  obtain ⟨s, iv, te, ip, ih, tf⟩ := pb
  cases s <;> cases iv <;> cases te <;> cases ip <;> cases ih <;> cases tf <;>
    simp_all [waitForDropdownUpdate]

/-- Witness for the amended C2 at a concrete page behavior. -/
theorem c2_hidden_wait_iff_present_witness :
    WaitStep.indicatorHiddenWait ∈
        (waitForDropdownUpdate selMake (some "1") selModel
          ⟨true, true, false, true, true, true⟩).1 ↔
      (PageBehavior.mk true true false true true true).indicatorPresent =
        true :=
  c2_hidden_wait_iff_present selMake (some "1") selModel
    ⟨true, true, false, true, true, true⟩ rfl rfl

/-! ## Claim C3 -/

/-- Claim C3: the driver performs the final confirmation wait that the target
field is enabled regardless of which branch of the race fired (first
conjunct: whenever the race resolved and the conditional hidden-wait did not
time out, the final wait is attempted), and when the loading indicator never
becomes visible but the target field becomes enabled within the short race
window, `advance` still completes successfully rather than failing on the
missing indicator (second conjunct). -/
theorem c3_final_wait_and_fast_path :
    (∀ (t : String) (v : Option String) (g : String) (pb : PageBehavior),
        pb.selectOk = true →
        (pb.indicatorVisible || pb.targetEnabledShort) = true →
        (pb.indicatorPresent = true → pb.indicatorHides = true) →
        WaitStep.finalEnabledWait ∈ (waitForDropdownUpdate t v g pb).1) ∧
      ∀ (t : String) (v : Option String) (g : String) (pb : PageBehavior),
        pb.selectOk = true → pb.indicatorVisible = false →
        pb.targetEnabledShort = true → pb.indicatorHides = true →
        pb.targetEnabledFinal = true →
        (waitForDropdownUpdate t v g pb).2 = Except.ok () := by
  constructor
  · intro t v g pb hs hrace hih
    obtain ⟨s, iv, te, ip, ih, tf⟩ := pb
    cases s <;> cases iv <;> cases te <;> cases ip <;> cases ih <;>
      cases tf <;> simp_all [waitForDropdownUpdate]
  · intro t v g pb hs hiv hte hih htf
    obtain ⟨s, iv, te, ip, ih, tf⟩ := pb
    cases s <;> cases iv <;> cases te <;> cases ip <;> cases ih <;>
      cases tf <;> simp_all [waitForDropdownUpdate]

/-- Witness for C3: the final wait is attempted on the visible-branch page,
and the fast path (indicator never visible, element absent, target enabled
quickly) succeeds. -/
theorem c3_final_wait_and_fast_path_witness :
    WaitStep.finalEnabledWait ∈
        (waitForDropdownUpdate selMake (some "1") selModel
          ⟨true, true, false, true, true, true⟩).1 ∧
      (waitForDropdownUpdate selMake (some "1") selModel
          ⟨true, false, true, false, true, true⟩).2 = Except.ok () :=
  ⟨c3_final_wait_and_fast_path.1 selMake (some "1") selModel
      ⟨true, true, false, true, true, true⟩ rfl rfl (fun _ => rfl),
    c3_final_wait_and_fast_path.2 selMake (some "1") selModel
      ⟨true, false, true, false, true, true⟩ rfl rfl rfl rfl rfl⟩

/-! ## Claim C6 -/

/-- Counterexample to claim C6 as stated: when the race times out after
selecting make "1", the error propagated to the caller is
`Failed to load #MainContent_ddlModel after selecting 1`, which does not
name the trigger stage (`#MainContent_ddlMake` is not a substring); the
trigger appears only in the `console.error` diagnostic. -/
theorem c6_counterexample :
    (waitForDropdownUpdate selMake (some "1") selModel
        ⟨true, false, false, false, false, false⟩).2 =
      Except.error (mkFailure selMake (some "1") selModel) ∧
      listHasInfix selMake.data
        (mkThrown (some "1") selModel).data = false := by
  constructor
  · rfl
  · decide

/-- Claim C6 amended: if any wait step of a driver advance exceeds its
timeout, the call fails with a terminal error whose propagated message names
the attempted value and the target stage (the trigger stage is named only in
the logged diagnostic, together with the target stage), and the driver
performs no internal retry: no wait step is ever attempted twice in one
call. -/
theorem c6_timeout_terminal (t : String) (v : Option String) (g : String)
    (pb : PageBehavior) (f : DriverFailure)
    (h : (waitForDropdownUpdate t v g pb).2 = Except.error f) :
    f.thrown = mkThrown v g ∧ f.log = mkLog t g ∧
      ((waitForDropdownUpdate t v g pb).1).Nodup := by
  have hf := wFDU_error_eq t v g pb f h
  subst hf
  refine ⟨rfl, rfl, ?_⟩
  obtain ⟨s, iv, te, ip, ih, tf⟩ := pb
  cases s <;> cases iv <;> cases te <;> cases ip <;> cases ih <;> cases tf <;>
    simp [waitForDropdownUpdate]

/-- Witness for the amended C6 at a concrete failing advance. -/
theorem c6_timeout_terminal_witness :
    mkThrown (some "7") selModel = mkThrown (some "7") selModel ∧
      mkLog selMake selModel = mkLog selMake selModel ∧
      ((waitForDropdownUpdate selMake (some "7") selModel
        ⟨true, true, false, true, false, true⟩).1).Nodup :=
  c6_timeout_terminal selMake (some "7") selModel
    ⟨true, true, false, true, false, true⟩
    (mkFailure selMake (some "7") selModel) rfl

/-! ## Head-of-trace lemmas -/

theorem plan_head (q : SelectionRequest) (hg : guard1 q = false) :
    ((scrapePlan q).advances).head? =
      some ⟨selMake, q.makeId, selModel⟩ := by
  by_cases h2 : guard2 q <;> by_cases h3 : guard3 q <;>
    by_cases h4 : guard4 q <;> by_cases h5 : guard5 q <;>
    simp [scrapePlan, hg, h2, h3, h4, h5]

theorem runScrape_head (q : SelectionRequest) (env : Nat → PageBehavior)
    (rb : ReadBehavior) (c : AdvanceCall) (cs : List AdvanceCall)
    (h : (scrapePlan q).advances = c :: cs) :
    ((runScrape q env rb).1).head? = some (toEvent c) := by
  simp only [runScrape, h]
  cases hw : (waitForDropdownUpdate c.trigger c.value c.target (env 0)).2 with
  | error f => simp [runAdvances, hw, toEvent]
  | ok u =>
    cases u
    cases hr : (runAdvances cs env 1).2 with
    | some f => simp [runAdvances, hw, hr, toEvent]
    | none =>
      cases hgs : getSelectOptions (scrapePlan q).readSelector rb with
      | error m => simp [runAdvances, hw, hr, hgs, toEvent]
      | ok opts => simp [runAdvances, hw, hr, hgs, toEvent]

/-! ## Claim C4 -/

/-- Counterexample to claim C4 as stated: the request `{ yearId: "x" }`
(year supplied, model and make missing) is not rejected before external
interaction — the engine attempts a driver advance on the Make dropdown,
passing the undefined `makeId`, and the surfaced failure is the generic
dropdown error, not a precondition violation. -/
theorem c4_counterexample :
    (runScrape ⟨none, none, some "x", none, none⟩
        (fun _ => ⟨false, false, false, false, false, false⟩) ⟨true, []⟩).1 =
      [ScrapeEvent.advance selMake none selModel] ∧
      (runScrape ⟨none, none, some "x", none, none⟩
        (fun _ => ⟨false, false, false, false, false, false⟩) ⟨true, []⟩).2 =
      HttpResponse.serverError (mkThrown none selModel) :=
  ⟨rfl, rfl⟩

/-- Claim C4 amended: the engine performs no precondition check for a
non-contiguous identifier prefix. Such a request is dispatched by the
truthiness guards like any other, and external page interaction is always
attempted: the first observable event of the request is a driver advance of
the Make dropdown with whatever `makeId` was supplied (possibly absent);
any failure surfaces as the generic scraping error, and a request whose
advances all settle even returns an option set. -/
theorem c4_no_precondition_check (q : SelectionRequest)
    (env : Nat → PageBehavior) (rb : ReadBehavior)
    (hc : isContiguous q = false) :
    ((runScrape q env rb).1).head? =
      some (ScrapeEvent.advance selMake q.makeId selModel) := by
  have hg : guard1 q = false := by
    cases hg : guard1 q
    · rfl
    · exfalso
      simp only [guard1, Bool.and_eq_true, Bool.not_eq_true'] at hg
      obtain ⟨⟨⟨⟨hA, hB⟩, hC⟩, hD⟩, hE⟩ := hg
      simp [isContiguous, hA, hB, hC, hD, hE] at hc
  have hhead := plan_head q hg
  cases hadv : (scrapePlan q).advances with
  | nil => rw [hadv] at hhead; simp at hhead
  | cons c cs =>
    rw [hadv] at hhead
    simp at hhead
    rw [hhead] at hadv
    have := runScrape_head q env rb _ cs hadv
    simpa [toEvent] using this

/-- Witness for the amended C4 at the request `makeId = "1", yearId = "2"`
(model missing between make and year). -/
theorem c4_no_precondition_check_witness :
    ((runScrape ⟨some "1", none, some "2", none, none⟩
        (fun _ => ⟨true, true, true, true, true, true⟩) ⟨true, []⟩).1).head? =
      some (ScrapeEvent.advance selMake (some "1") selModel) :=
  c4_no_precondition_check ⟨some "1", none, some "2", none, none⟩
    (fun _ => ⟨true, true, true, true, true, true⟩) ⟨true, []⟩ (by decide)

/-! ## Claim C7 -/

/-- Claim C7: every failure aborts the entire resolution and the caller
receives only an error, never a partial result.  First conjunct: if the
j-th driver advance of the dispatched branch fails (all earlier ones having
settled), the response is the 500 error carrying that advance's message —
which names the attempted value and the target stage — and is not an option
payload, even though earlier stages settled.  Second conjunct: likewise when
every advance settles but the final option read times out. -/
theorem c7_failure_aborts :
    (∀ (q : SelectionRequest) (env : Nat → PageBehavior) (rb : ReadBehavior)
        (j : Nat) (hj : j < (scrapePlan q).advances.length),
        (∀ k, k < j → pbOk (env k) = true) → pbOk (env j) = false →
        (runScrape q env rb).2 =
            HttpResponse.serverError
              (mkThrown ((scrapePlan q).advances.get ⟨j, hj⟩).value
                ((scrapePlan q).advances.get ⟨j, hj⟩).target) ∧
          ∀ key opts, (runScrape q env rb).2 ≠ HttpResponse.ok key opts) ∧
      ∀ (q : SelectionRequest) (env : Nat → PageBehavior) (rb : ReadBehavior),
        (∀ k, k < (scrapePlan q).advances.length → pbOk (env k) = true) →
        rb.enabled = false →
        (runScrape q env rb).2 =
            HttpResponse.serverError
              (readTimeoutMsg (scrapePlan q).readSelector) ∧
          ∀ key opts, (runScrape q env rb).2 ≠ HttpResponse.ok key opts := by
  constructor
  · intro q env rb j hj hpre hfail
    have hf := runAdvances_fail (scrapePlan q).advances env 0 j hj
      (fun k hk => by simpa using hpre k hk) (by simpa using hfail)
    constructor
    · simp [runScrape, hf, mkFailure]
    · intro key opts
      simp [runScrape, hf]
  · intro q env rb henv hrb
    have hra : runAdvances (scrapePlan q).advances env 0 =
        ((scrapePlan q).advances.map toEvent, none) :=
      runAdvances_allOk _ env 0 (fun k hk => by simpa using henv k hk)
    constructor
    · simp [runScrape, hra, getSelectOptions, hrb]
    · intro key opts
      simp [runScrape, hra, getSelectOptions, hrb]

/-- Witness for C7: a depth-2 request whose second advance times out yields
the 500 error for the Model-to-Year advance, and a depth-0 request whose
option read times out yields the read-timeout error. -/
theorem c7_failure_aborts_witness :
    ((runScrape ⟨some "1", some "5", none, none, none⟩
          (fun i => if i = 0 then ⟨true, true, true, true, true, true⟩
            else ⟨true, false, false, false, false, false⟩) ⟨true, []⟩).2 =
        HttpResponse.serverError (mkThrown (some "5") selYear) ∧
        ∀ key opts,
          (runScrape ⟨some "1", some "5", none, none, none⟩
            (fun i => if i = 0 then ⟨true, true, true, true, true, true⟩
              else ⟨true, false, false, false, false, false⟩)
            ⟨true, []⟩).2 ≠ HttpResponse.ok key opts) ∧
      (runScrape ⟨none, none, none, none, none⟩
          (fun _ => ⟨true, true, true, true, true, true⟩) ⟨false, []⟩).2 =
        HttpResponse.serverError (readTimeoutMsg selMake) ∧
      ∀ key opts,
        (runScrape ⟨none, none, none, none, none⟩
          (fun _ => ⟨true, true, true, true, true, true⟩) ⟨false, []⟩).2 ≠
          HttpResponse.ok key opts := by
  refine ⟨?_, ?_⟩
  · exact c7_failure_aborts.1 ⟨some "1", some "5", none, none, none⟩
      (fun i => if i = 0 then ⟨true, true, true, true, true, true⟩
        else ⟨true, false, false, false, false, false⟩) ⟨true, []⟩
      1 (by decide) (fun k hk => by interval_cases k; rfl) rfl
  · exact c7_failure_aborts.2 ⟨none, none, none, none, none⟩
      (fun _ => ⟨true, true, true, true, true, true⟩) ⟨false, []⟩
      (fun k _ => rfl) rfl

/-! ## Claim C8 -/

/-- Claim C8: for every request with depth 0 (no identifier supplied, in the
truthiness sense), `resolve` never invokes the Selection Driver — the event
trace is exactly one option read of the Make dropdown — and, when the read
settles, it returns exactly the Stage-1 (Make) OptionSet of the freshly
loaded page. -/
theorem c8_depth0_reads_makes (q : SelectionRequest)
    (env : Nat → PageBehavior) (rb : ReadBehavior)
    (h1 : truthy q.makeId = false) (h2 : truthy q.modelId = false)
    (h3 : truthy q.yearId = false) (h4 : truthy q.countryId = false)
    (h5 : truthy q.fuelId = false) :
    (runScrape q env rb).1 = [ScrapeEvent.readOptions selMake] ∧
      (rb.enabled = true →
        (runScrape q env rb).2 =
          HttpResponse.ok StageKey.makes (stripOptions rb.raw)) := by
  have hg : guard1 q = true := by
    simp [guard1, h1, h2, h3, h4, h5]
  constructor
  · cases he : rb.enabled <;>
      simp [runScrape, scrapePlan, hg, runAdvances, getSelectOptions, he]
  · intro he
    simp [runScrape, scrapePlan, hg, runAdvances, getSelectOptions, he]

/-- Witness for C8 at the empty request and a settled Make dropdown. -/
theorem c8_depth0_reads_makes_witness :
    (runScrape ⟨none, none, none, none, none⟩
        (fun _ => ⟨true, true, true, true, true, true⟩)
        ⟨true, [⟨"", "Choose Make"⟩, ⟨"1", "Toyota"⟩]⟩).1 =
      [ScrapeEvent.readOptions selMake] ∧
      ((ReadBehavior.mk true [⟨"", "Choose Make"⟩, ⟨"1", "Toyota"⟩]).enabled =
          true →
        (runScrape ⟨none, none, none, none, none⟩
          (fun _ => ⟨true, true, true, true, true, true⟩)
          ⟨true, [⟨"", "Choose Make"⟩, ⟨"1", "Toyota"⟩]⟩).2 =
        HttpResponse.ok StageKey.makes
          (stripOptions [⟨"", "Choose Make"⟩, ⟨"1", "Toyota"⟩])) :=
  c8_depth0_reads_makes ⟨none, none, none, none, none⟩
    (fun _ => ⟨true, true, true, true, true, true⟩)
    ⟨true, [⟨"", "Choose Make"⟩, ⟨"1", "Toyota"⟩]⟩ rfl rfl rfl rfl rfl

/-! ## Claim C9 -/

/-- Claim C9: an identifier supplied as the empty string is treated exactly
as an absent one.  First conjunct: every dispatch guard tests only the
truthiness of the identifiers, so two requests with the same truthiness
pattern fire the same branch.  Second conjunct: the request with
`makeId = ""` and nothing else behaves exactly as the empty (depth-0)
request, returning the Make OptionSet. -/
theorem c9_empty_string_as_absent :
    (∀ q q' : SelectionRequest,
        truthy q.makeId = truthy q'.makeId →
        truthy q.modelId = truthy q'.modelId →
        truthy q.yearId = truthy q'.yearId →
        truthy q.countryId = truthy q'.countryId →
        truthy q.fuelId = truthy q'.fuelId →
        branchOf q = branchOf q') ∧
      ∀ (env : Nat → PageBehavior) (rb : ReadBehavior),
        runScrape ⟨some "", none, none, none, none⟩ env rb =
          runScrape ⟨none, none, none, none, none⟩ env rb := by
  constructor
  · intro q q' h1 h2 h3 h4 h5
    simp only [branchOf, guard1, guard2, guard3, guard4, guard5, h1, h2, h3,
      h4, h5]
  · intro env rb
    rfl

/-- Witness for C9: the `makeId = ""` request fires the same branch as the
empty request, and produces the same trace and response on a settled page. -/
theorem c9_empty_string_as_absent_witness :
    branchOf ⟨some "", none, none, none, none⟩ =
        branchOf ⟨none, none, none, none, none⟩ ∧
      runScrape ⟨some "", none, none, none, none⟩
          (fun _ => ⟨true, true, true, true, true, true⟩)
          ⟨true, [⟨"", "Choose Make"⟩, ⟨"1", "Toyota"⟩]⟩ =
        runScrape ⟨none, none, none, none, none⟩
          (fun _ => ⟨true, true, true, true, true, true⟩)
          ⟨true, [⟨"", "Choose Make"⟩, ⟨"1", "Toyota"⟩]⟩ :=
  ⟨c9_empty_string_as_absent.1 ⟨some "", none, none, none, none⟩
      ⟨none, none, none, none, none⟩ rfl rfl rfl rfl rfl,
    c9_empty_string_as_absent.2
      (fun _ => ⟨true, true, true, true, true, true⟩)
      ⟨true, [⟨"", "Choose Make"⟩, ⟨"1", "Toyota"⟩]⟩⟩

/-! ## Claim C10 -/

/-- Claim C10: the dispatch is exhaustive via the final else branch — every
request matching none of the five guarded shapes is handled by the Engine
branch, whose plan advances all five stages with exactly the identifier
values the request supplied (possibly absent) and reads the Engine dropdown;
when the five advances settle, the trace is those five driver calls followed
by the Engine option read. -/
theorem c10_else_branch_engines (q : SelectionRequest)
    (env : Nat → PageBehavior) (rb : ReadBehavior)
    (hg1 : guard1 q = false) (hg2 : guard2 q = false)
    (hg3 : guard3 q = false) (hg4 : guard4 q = false)
    (hg5 : guard5 q = false) :
    scrapePlan q =
        ⟨[⟨selMake, q.makeId, selModel⟩, ⟨selModel, q.modelId, selYear⟩,
            ⟨selYear, q.yearId, selCountry⟩,
            ⟨selCountry, q.countryId, selFuel⟩,
            ⟨selFuel, q.fuelId, selEngine⟩],
          selEngine, .engines⟩ ∧
      ((∀ k, k < 5 → pbOk (env k) = true) →
        (runScrape q env rb).1 =
          [ScrapeEvent.advance selMake q.makeId selModel,
            ScrapeEvent.advance selModel q.modelId selYear,
            ScrapeEvent.advance selYear q.yearId selCountry,
            ScrapeEvent.advance selCountry q.countryId selFuel,
            ScrapeEvent.advance selFuel q.fuelId selEngine,
            ScrapeEvent.readOptions selEngine]) := by
  have hp : scrapePlan q =
      ⟨[⟨selMake, q.makeId, selModel⟩, ⟨selModel, q.modelId, selYear⟩,
          ⟨selYear, q.yearId, selCountry⟩, ⟨selCountry, q.countryId, selFuel⟩,
          ⟨selFuel, q.fuelId, selEngine⟩],
        selEngine, .engines⟩ := by
    simp [scrapePlan, hg1, hg2, hg3, hg4, hg5]
  refine ⟨hp, fun henv => ?_⟩
  have hev := runScrape_events_allOk q env rb
    (fun k hk => henv k (by rw [hp] at hk; simpa using hk))
  rw [hp] at hev
  simpa [toEvent] using hev

/-- Witness for C10 at the skipped-prefix request `yearId = "x"` alone, on a
page where every wait resolves. -/
theorem c10_else_branch_engines_witness :
    scrapePlan ⟨none, none, some "x", none, none⟩ =
        ⟨[⟨selMake, none, selModel⟩, ⟨selModel, none, selYear⟩,
            ⟨selYear, some "x", selCountry⟩, ⟨selCountry, none, selFuel⟩,
            ⟨selFuel, none, selEngine⟩],
          selEngine, .engines⟩ ∧
      ((∀ k, k < 5 →
          pbOk ((fun _ => PageBehavior.mk true true true true true true)
            k) = true) →
        (runScrape ⟨none, none, some "x", none, none⟩
            (fun _ => ⟨true, true, true, true, true, true⟩) ⟨true, []⟩).1 =
          [ScrapeEvent.advance selMake none selModel,
            ScrapeEvent.advance selModel none selYear,
            ScrapeEvent.advance selYear (some "x") selCountry,
            ScrapeEvent.advance selCountry none selFuel,
            ScrapeEvent.advance selFuel none selEngine,
            ScrapeEvent.readOptions selEngine]) :=
  c10_else_branch_engines ⟨none, none, some "x", none, none⟩
    (fun _ => ⟨true, true, true, true, true, true⟩) ⟨true, []⟩
    (by decide) (by decide) (by decide) (by decide) (by decide)

/-! ## Trimming lemmas and claim C5 -/

theorem head?_dropWhile_not (p : Char → Bool) (l : List Char) (c : Char)
    (h : (l.dropWhile p).head? = some c) : p c = false := by
  induction l with
  | nil => simp [List.dropWhile] at h
  | cons a t ih =>
    by_cases ha : p a
    · rw [List.dropWhile_cons_of_pos ha] at h
      exact ih h
    · rw [List.dropWhile_cons_of_neg ha] at h
      simp at h
      rw [← h]
      simpa using ha

theorem getLast?_cons_ne_nil (a : Char) (t : List Char) (h : t ≠ []) :
    (a :: t).getLast? = t.getLast? := by
  cases t with
  | nil => exact absurd rfl h
  | cons b u => exact List.getLast?_cons_cons

theorem getLast?_dropWhile (p : Char → Bool) (l : List Char)
    (h : l.dropWhile p ≠ []) :
    (l.dropWhile p).getLast? = l.getLast? := by
  induction l with
  | nil => simp [List.dropWhile] at h
  | cons a t ih =>
    by_cases ha : p a
    · rw [List.dropWhile_cons_of_pos ha] at h ⊢
      rw [ih h, getLast?_cons_ne_nil a t]
      intro ht
      exact h (by simp [ht, List.dropWhile])
    · rw [List.dropWhile_cons_of_neg ha]

theorem jsTrim_head (s : String) (c : Char)
    (h : (jsTrim s).data.head? = some c) : c.isWhitespace = false := by
  unfold jsTrim at h
  rw [List.head?_reverse] at h
  have hne : ((s.data.dropWhile Char.isWhitespace).reverse.dropWhile
      Char.isWhitespace) ≠ [] := by
    intro hnil
    rw [hnil] at h
    simp at h
  rw [getLast?_dropWhile _ _ hne, List.getLast?_reverse] at h
  exact head?_dropWhile_not _ _ _ h

theorem jsTrim_last (s : String) (c : Char)
    (h : (jsTrim s).data.getLast? = some c) : c.isWhitespace = false := by
  unfold jsTrim at h
  rw [List.getLast?_reverse] at h
  exact head?_dropWhile_not _ _ _ h

theorem jsTrim_decomp (s : String) :
    ∃ a b, s.data = a ++ (jsTrim s).data ++ b ∧
      (∀ c ∈ a, c.isWhitespace = true) ∧ ∀ c ∈ b, c.isWhitespace = true := by
  refine ⟨s.data.takeWhile Char.isWhitespace,
    ((s.data.dropWhile Char.isWhitespace).reverse.takeWhile
      Char.isWhitespace).reverse, ?_, ?_, ?_⟩
  · unfold jsTrim
    conv_lhs =>
      rw [← List.takeWhile_append_dropWhile Char.isWhitespace s.data]
    rw [List.append_assoc]
    congr 1
    conv_lhs =>
      rw [← List.reverse_reverse (s.data.dropWhile Char.isWhitespace),
        ← List.takeWhile_append_dropWhile Char.isWhitespace
          (s.data.dropWhile Char.isWhitespace).reverse]
    rw [List.reverse_append]
  · intro c hc
    exact List.mem_takeWhile_imp hc
  · intro c hc
    rw [List.mem_reverse] at hc
    exact List.mem_takeWhile_imp hc

/-- Claim C5: for every stage read, the returned OptionSet is the raw
(value, label) list with its first (placeholder) entry removed, kept in the
source's display order — entrywise, the i-th returned option is built from
the (i+1)-th raw entry — and every returned name is the raw label with its
leading and trailing whitespace removed: the name occurs in the label
between purely-whitespace margins and itself starts and ends with
non-whitespace. -/
theorem c5_optionset_shape (sel : String) (rb : ReadBehavior)
    (opts : List OptionRec)
    (h : getSelectOptions sel rb = Except.ok opts) :
    opts.length = rb.raw.length - 1 ∧
      (∀ i : Nat,
        opts[i]? = (rb.raw[i + 1]?).map
          fun o => OptionRec.mk o.value (jsTrim o.textContent)) ∧
      (∀ o ∈ opts,
        (∀ c, o.name.data.head? = some c → c.isWhitespace = false) ∧
          (∀ c, o.name.data.getLast? = some c → c.isWhitespace = false) ∧
          ∃ r ∈ rb.raw.drop 1, ∃ a b,
            r.textContent.data = a ++ o.name.data ++ b ∧
              (∀ c ∈ a, c.isWhitespace = true) ∧
              ∀ c ∈ b, c.isWhitespace = true) := by
  have hopts : opts = stripOptions rb.raw := by
    by_cases he : rb.enabled <;> simp [getSelectOptions, he] at h
    exact h.symm
  subst hopts
  refine ⟨by simp [stripOptions], fun i => ?_, fun o ho => ?_⟩
  · simp only [stripOptions, List.getElem?_map, List.getElem?_drop]
    rw [Nat.add_comm 1 i]
  · simp only [stripOptions, List.mem_map] at ho
    obtain ⟨r, hr, hro⟩ := ho
    subst hro
    exact ⟨fun c hc => jsTrim_head _ _ hc, fun c hc => jsTrim_last _ _ hc,
      r, hr, jsTrim_decomp r.textContent⟩

/-- Witness for C5 on a concrete dropdown with a placeholder and padded
labels. -/
theorem c5_optionset_shape_witness :
    getSelectOptions selMake
        ⟨true, [⟨"", "Choose Make"⟩, ⟨"1", " Toyota "⟩, ⟨"2", "Nissan"⟩]⟩ =
      Except.ok [⟨"1", "Toyota"⟩, ⟨"2", "Nissan"⟩] ∧
      [OptionRec.mk "1" "Toyota", OptionRec.mk "2" "Nissan"].length =
        [RawOption.mk "" "Choose Make", RawOption.mk "1" " Toyota ",
          RawOption.mk "2" "Nissan"].length - 1 :=
  ⟨by rfl,
    (c5_optionset_shape selMake
      ⟨true, [⟨"", "Choose Make"⟩, ⟨"1", " Toyota "⟩, ⟨"2", "Nissan"⟩]⟩
      [⟨"1", "Toyota"⟩, ⟨"2", "Nissan"⟩] (by rfl)).1⟩

end Scrapper
